import Mathlib

/-!
Verification development for the cryptobot_studio core:
shallow embedding (over ℚ) of the indicator library (`src/indicators.py`),
the signal strategies (`src/strategies.py`, `src/trend_analyzer.py`),
the hybrid composer (`src/hybrid_strategy.py`) and the risk ledger
(`src/risk_manager.py`), together with theorems settling the claims.

Modelling conventions:
* Python floats are modelled as ℚ; a float NaN (which the source produces
  only in the two RSI computations, on a 0/0 division) is modelled as
  `none` of `Option ℚ`; comparisons against `none` are `false`, matching
  IEEE NaN comparison semantics.
* A pandas DataFrame of candles is a `List Candle`, newest last; a close
  price series is a `List ℚ`.
* `ewm(adjust=False)` is the recurrence y₀ = x₀, yᵢ = (1-α)·yᵢ₋₁ + α·xᵢ;
  `rolling(w).mean()` at the final row is the mean of the last w entries
  (all call sites guard the series to be at least that long).
* Optional / falsy Python arguments (`None`, `0.0`) are `Option ℚ` with an
  explicit truthiness test where the source tests truthiness.
-/

set_option maxHeartbeats 2000000
set_option maxRecDepth 10000

-- Batteries marks the ℚ field operations `@[irreducible]`, which blocks
-- `decide` from evaluating the embedded functions on concrete inputs; the
-- kernel itself reduces them regardless, so restoring the default
-- reducibility for this file is sound.
set_option allowUnsafeReducibility true
attribute [local semireducible] Rat.add Rat.mul Rat.sub Rat.inv Rat.ofScientific

namespace CryptoBot

/-- One OHLCV candle. `ts` stands in for the DataFrame's datetime index
(the source only ever stringifies it into result records). -/
structure Candle where
  open_ : ℚ
  high : ℚ
  low : ℚ
  close : ℚ
  volume : ℚ
  ts : Int
deriving DecidableEq, Repr

/-- Default candle used for (never hit, loop-bounded) list indexing. -/
def cDefault : Candle := ⟨0, 0, 0, 0, 0, 0⟩

/-- Last `n` elements of a list: pandas `df.tail(n)`. -/
def takeLast (n : Nat) (xs : List α) : List α := xs.drop (xs.length - n)

/-- Comparison `x < q` for a possibly-NaN float; NaN compares false. -/
def optLt (x : Option ℚ) (q : ℚ) : Bool :=
  match x with
  | some v => decide (v < q)
  | none => false

/-- Comparison `x > q` for a possibly-NaN float; NaN compares false. -/
def optGt (x : Option ℚ) (q : ℚ) : Bool :=
  match x with
  | some v => decide (q < v)
  | none => false

/-- Python `min(a, x)` on a float that may be NaN: CPython keeps the first
argument unless the second compares strictly smaller, so `min(a, nan) = a`. -/
def pyMinQ (a : ℚ) (x : Option ℚ) : ℚ :=
  match x with
  | some v => if v < a then v else a
  | none => a

/-- Python truthiness of an optional float: `None` and `0.0` are falsy. -/
def truthyQ (x : Option ℚ) : Bool :=
  match x with
  | some v => decide (v ≠ 0)
  | none => false

/-- Tail of the `ewm(adjust=False)` recurrence, given the running value. -/
def ewmGo (a : ℚ) (y : ℚ) : List ℚ → List ℚ
  | [] => []
  | x :: xs =>
    let y' := (1 - a) * y + a * x
    y' :: ewmGo a y' xs

/-- Full `ewm(alpha=a, adjust=False).mean()` series. -/
def ewmAlpha (a : ℚ) : List ℚ → List ℚ
  | [] => []
  | x :: xs => x :: ewmGo a x xs

/-- The `ewm(span=s, adjust=False).mean()` series (α = 2/(s+1)). -/
def ewmSpan (s : ℚ) (xs : List ℚ) : List ℚ := ewmAlpha (2 / (s + 1)) xs

/-- Consecutive price differences `prices.diff()` (without the leading NaN). -/
def pdiff (prices : List ℚ) : List ℚ :=
  List.zipWith (fun cur prev => cur - prev) prices.tail prices

/-- Mean of the last `w` elements: `rolling(w).mean().iloc[-1]`; call sites
guarantee the series has at least `w` elements, so the value is defined. -/
def rollingMeanLast (w : Nat) (xs : List ℚ) : ℚ := (takeLast w xs).sum / (w : ℚ)

/-- Last element of a nonempty ℚ-list (`iloc[-1]`; 0 default never hit at
guarded call sites). -/
def lastD (xs : List ℚ) : ℚ := xs.getLastD 0

/-- Second to last element (`iloc[-2]`; guarded call sites only). -/
def secondLastD (xs : List ℚ) : ℚ := xs.getD (xs.length - 2) 0

/-! ## Indicator result records (`src/indicators.py`) -/

/-- RSI 계산 결과.  `value` is the float RSI, `none` modelling the NaN that
the source produces when both smoothed averages are exactly zero. -/
structure RSIResult where
  value : Option ℚ
  is_oversold : Bool
  is_overbought : Bool
deriving DecidableEq, Repr

structure BollingerBandsResult where
  upper : ℚ
  middle : ℚ
  lower : ℚ
  current_price : ℚ
  is_above_upper : Bool
  is_below_lower : Bool
  percent_b : ℚ
deriving DecidableEq, Repr

inductive Direction where
  | BULLISH
  | BEARISH
  | NONE
deriving DecidableEq, Repr

structure FVGResult where
  found : Bool
  direction : Direction
  gap_top : ℚ
  gap_bottom : ℚ
  stop_loss : ℚ
  take_profit : ℚ
  momentum_candle_time : Option Int
  gap_size : ℚ
  gap_percent : ℚ
deriving DecidableEq, Repr

structure OrderBlockResult where
  found : Bool
  direction : Direction
  level : ℚ
  zone_top : ℚ
  zone_bottom : ℚ
  strength : Nat
  candle_time : Option Int
deriving DecidableEq, Repr

inductive PoolType where
  | SWING_HIGH
  | SWING_LOW
  | NONE
deriving DecidableEq, Repr

structure LiquidityPoolResult where
  found : Bool
  pool_type : PoolType
  level : ℚ
  zone_top : ℚ
  zone_bottom : ℚ
  touch_count : Nat
deriving DecidableEq, Repr

/-! ## Indicator functions -/

/-- Embedding of `calculate_rsi(prices, period, buy_threshold, sell_threshold)`.
Wilder smoothing with α = 1/period (`ewm(alpha=1/period, min_periods=period,
adjust=False)`; the `min_periods` masking never reaches the final row because
the guard requires `len ≥ period+1 > period`).  The source computes
`rs = avg_gain/avg_loss` and then remaps `±inf` to 0 (line 131): with
`avg_loss = 0` and `avg_gain > 0` the float quotient is `inf`, remapped to 0;
with both averages 0 the quotient is NaN, which survives the remap and
propagates to `value` — modelled as `none`. -/
def calculate_rsi (prices : Option (List ℚ)) (period : Nat)
    (buy_threshold sell_threshold : ℚ) : Option RSIResult :=
  match prices with
  | none => none
  | some ps =>
    if ps.length < period + 1 then none
    else
      let deltas := pdiff ps
      -- delta.where(delta > 0, 0.0): the leading NaN of diff() becomes 0
      let gain := 0 :: deltas.map (fun d => if 0 < d then d else 0)
      let loss := 0 :: deltas.map (fun d => if d < 0 then -d else 0)
      let avg_gain := lastD (ewmAlpha (1 / (period : ℚ)) gain)
      let avg_loss := lastD (ewmAlpha (1 / (period : ℚ)) loss)
      let rs : Option ℚ :=
        if avg_loss = 0 then (if avg_gain = 0 then none else some 0)
        else some (avg_gain / avg_loss)
      let value : Option ℚ := rs.map (fun q => 100 - 100 / (1 + q))
      some { value := value
             is_oversold := optLt value buy_threshold
             is_overbought := optGt value sell_threshold }

/-- Embedding of `calculate_bollinger_bands(prices, period, std_dev)`.  The rolling
sample standard deviation is a real square root, not expressible in ℚ:
it is abstracted as the oracle `sq`, applied to the window (mirroring
`prices.rolling(period).std()` at the final row). -/
def calculate_bollinger_bands (sq : List ℚ → ℚ) (prices : Option (List ℚ))
    (period : Nat) (std_dev : ℚ) : Option BollingerBandsResult :=
  match prices with
  | none => none
  | some ps =>
    if ps.length < period then none
    else
      let middle := rollingMeanLast period ps
      let std := sq (takeLast period ps)
      let upper := middle + std * std_dev
      let lower := middle - std * std_dev
      let current_price := lastD ps
      let band_width := upper - lower
      let percent_b :=
        if 0 < band_width then (current_price - lower) / band_width else 1/2
      some { upper := upper
             middle := middle
             lower := lower
             current_price := current_price
             is_above_upper := decide (upper < current_price)
             is_below_lower := decide (current_price < lower)
             percent_b := percent_b }

/-- Embedding of `calculate_sma(prices, period)`. -/
def calculate_sma (prices : Option (List ℚ)) (period : Nat) : Option ℚ :=
  match prices with
  | none => none
  | some ps =>
    if ps.length < period then none else some (rollingMeanLast period ps)

/-- Embedding of `calculate_ema(prices, period)`. -/
def calculate_ema (prices : Option (List ℚ)) (period : Nat) : Option ℚ :=
  match prices with
  | none => none
  | some ps =>
    if ps.length < period then none else some (lastD (ewmSpan (period : ℚ) ps))

/-- Embedding of `calculate_macd(prices, fast, slow, signal)`. -/
def calculate_macd (prices : Option (List ℚ))
    (fast_period slow_period signal_period : Nat) : Option (ℚ × ℚ × ℚ) :=
  match prices with
  | none => none
  | some ps =>
    if ps.length < slow_period + signal_period then none
    else
      let fast_ema := ewmSpan (fast_period : ℚ) ps
      let slow_ema := ewmSpan (slow_period : ℚ) ps
      let macd_line := List.zipWith (· - ·) fast_ema slow_ema
      let signal_line := ewmSpan (signal_period : ℚ) macd_line
      let histogram := lastD macd_line - lastD signal_line
      some (lastD macd_line, lastD signal_line, histogram)

/-! ## `detect_fvg` -/

/-- The "not found" FVG sentinel returned when no window qualifies. -/
def fvgNotFoundR : FVGResult :=
  { found := false, direction := .NONE, gap_top := 0, gap_bottom := 0
    stop_loss := 0, take_profit := 0, momentum_candle_time := none
    gap_size := 0, gap_percent := 0 }

/-- One iteration of the `detect_fvg` scan at window `(i-2, i-1, i)`:
`some r` when the window yields an accepted (large enough, unfilled) gap,
`none` when the scan must move on.  Division by a zero `gap_bottom` (a
zero-priced candle, impossible in market data) yields 0 in ℚ where the
source's float division yields ±inf; no claim touches that corner. -/
def fvgCheckAt (w : List Candle) (min_gap_percent : ℚ) (i : Nat) :
    Option FVGResult :=
  let candle_n2 := w.getD (i - 2) cDefault
  let candle_n1 := w.getD (i - 1) cDefault
  let candle_n := w.getD i cDefault
  -- 상승 FVG: N-2의 고가 < N의 저가
  if candle_n2.high < candle_n.low then
    let gap_bottom := candle_n2.high
    let gap_top := candle_n.low
    let gap_size := gap_top - gap_bottom
    let gap_percent := gap_size / gap_bottom * 100
    if min_gap_percent ≤ gap_percent then
      let filled := (w.drop (i + 1)).any (fun c => decide (c.low ≤ gap_bottom))
      if filled then none
      else
        some { found := true, direction := .BULLISH
               gap_top := gap_top, gap_bottom := gap_bottom
               stop_loss := candle_n1.low, take_profit := candle_n1.high
               momentum_candle_time := some candle_n1.ts
               gap_size := gap_size, gap_percent := gap_percent }
    else none
  -- 하락 FVG: N-2의 저가 > N의 고가 (mutually exclusive with the above)
  else if candle_n.high < candle_n2.low then
    let gap_top := candle_n2.low
    let gap_bottom := candle_n.high
    let gap_size := gap_top - gap_bottom
    let gap_percent := gap_size / gap_bottom * 100
    if min_gap_percent ≤ gap_percent then
      let filled := (w.drop (i + 1)).any (fun c => decide (gap_top ≤ c.high))
      if filled then none
      else
        some { found := true, direction := .BEARISH
               gap_top := gap_top, gap_bottom := gap_bottom
               stop_loss := candle_n1.high, take_profit := candle_n1.low
               momentum_candle_time := some candle_n1.ts
               gap_size := gap_size, gap_percent := gap_percent }
    else none
  else none

/-- The backward scan `for i in range(len(df)-1, 2, -1)`: try window `i`,
recurse on `i-1`, stop (not found) below `i = 3`. -/
def fvgGo (w : List Candle) (min_gap_percent : ℚ) : Nat → FVGResult
  | 0 => fvgNotFoundR
  | i + 1 =>
    if i + 1 < 3 then fvgNotFoundR
    else
      match fvgCheckAt w min_gap_percent (i + 1) with
      | some r => r
      | none => fvgGo w min_gap_percent i

/-- Embedding of `detect_fvg(df, min_gap_percent, lookback)`.  `None`/too-short input
returns `none`; otherwise the scan runs on the last `lookback` candles. -/
def detect_fvg (df : Option (List Candle)) (min_gap_percent : ℚ)
    (lookback : Nat) : Option FVGResult :=
  match df with
  | none => none
  | some d =>
    if d.length < 3 then none
    else
      let w := takeLast lookback d
      some (fvgGo w min_gap_percent (w.length - 1))

/-! ## `detect_order_block` -/

def obNotFoundR : OrderBlockResult :=
  { found := false, direction := .NONE, level := 0, zone_top := 0
    zone_bottom := 0, strength := 0, candle_time := none }

/-- Inner loop of `detect_order_block`: fold over candle indexes
`i, i-1, …` (at most 5), tracking `(consecutive_up, consecutive_down)`
and breaking as soon as either reaches `min_consecutive`. -/
def consecLoop (w : List Candle) (min_consecutive : Nat) :
    List Nat → Nat × Nat → Nat × Nat
  | [], acc => acc
  | j :: rest, (up, down) =>
    let c := w.getD j cDefault
    let acc' := if c.open_ < c.close then (up + 1, 0) else (0, down + 1)
    if min_consecutive ≤ acc'.1 ∨ min_consecutive ≤ acc'.2 then acc'
    else consecLoop w min_consecutive rest acc'

/-- Indexes visited by the inner loop at position `i`:
`range(i, max(i-5, 0), -1)`. -/
def consecIdxs (i : Nat) : List Nat := (List.range (min 5 i)).map (fun k => i - k)

/-- Body of the backward scan of `detect_order_block` at position `i`. -/
def obCheckAt (w : List Candle) (min_consecutive : Nat) ( min_body_ratio : ℚ)
    (i : Nat) : Option OrderBlockResult :=
  let cc := consecLoop w min_consecutive (consecIdxs i) (0, 0)
  let consecutive_up := cc.1
  let consecutive_down := cc.2
  -- Bullish OB: 연속 상승 직전의 마지막 음봉 (the source's `ob_idx >= 0`
  -- guard is always true since consecutive_up ≤ i)
  if min_consecutive ≤ consecutive_up then
    let ob_candle := w.getD (i - consecutive_up) cDefault
    if ob_candle.close < ob_candle.open_ then
      let body := |ob_candle.close - ob_candle.open_|
      let total_range := ob_candle.high - ob_candle.low
      let body_ratio := if 0 < total_range then body / total_range else 0
      if min_body_ratio ≤ body_ratio then
        some { found := true, direction := .BULLISH
               level := ob_candle.low, zone_top := ob_candle.open_
               zone_bottom := ob_candle.low, strength := consecutive_up
               candle_time := some ob_candle.ts }
      else none
    else none
  else if min_consecutive ≤ consecutive_down then
    let ob_candle := w.getD (i - consecutive_down) cDefault
    if ob_candle.open_ < ob_candle.close then
      let body := |ob_candle.close - ob_candle.open_|
      let total_range := ob_candle.high - ob_candle.low
      let body_ratio := if 0 < total_range then body / total_range else 0
      if min_body_ratio ≤ body_ratio then
        some { found := true, direction := .BEARISH
               level := ob_candle.high, zone_top := ob_candle.high
               zone_bottom := ob_candle.close, strength := consecutive_down
               candle_time := some ob_candle.ts }
      else none
    else none
  else none

/-- Backward scan `for i in range(len(df)-1, min_consecutive+1, -1)`. -/
def obGo (w : List Candle) (min_consecutive : Nat) ( min_body_ratio : ℚ) :
    Nat → OrderBlockResult
  | 0 => obNotFoundR
  | i + 1 =>
    if i + 1 < min_consecutive + 2 then obNotFoundR
    else
      match obCheckAt w min_consecutive min_body_ratio (i + 1) with
      | some r => r
      | none => obGo w min_consecutive min_body_ratio i

/-- Embedding of `detect_order_block(df, lookback, min_consecutive, min body ratio)`. -/
def detect_order_block (df : Option (List Candle)) (lookback : Nat)
    (min_consecutive : Nat) ( min_body_ratio : ℚ) : Option OrderBlockResult :=
  match df with
  | none => none
  | some d =>
    if d.length < lookback then none
    else
      let w := takeLast lookback d
      some (obGo w min_consecutive min_body_ratio (w.length - 1))

/-! ## `detect_liquidity_pool` -/

def lpNotFoundR : LiquidityPoolResult :=
  { found := false, pool_type := .NONE, level := 0, zone_top := 0
    zone_bottom := 0, touch_count := 0 }

/-- Candle `i` is a swing high: no other candle within `swing_period`
on either side has a high at or above it. -/
def isSwingHigh (w : List Candle) (sp : Nat) (i : Nat) : Bool :=
  ((List.range (2 * sp + 1)).map (fun k => i - sp + k)).all
    (fun j => j == i || decide ((w.getD j cDefault).high < (w.getD i cDefault).high))

/-- Candle `i` is a swing low (symmetric). -/
def isSwingLow (w : List Candle) (sp : Nat) (i : Nat) : Bool :=
  ((List.range (2 * sp + 1)).map (fun k => i - sp + k)).all
    (fun j => j == i || decide ((w.getD i cDefault).low < (w.getD j cDefault).low))

/-- Python `min(xs, key)` / `max(xs, key)`: first extremal element wins. -/
def pyMinBy (key : α → ℚ) : List α → Option α
  | [] => none
  | x :: xs => some (xs.foldl (fun b y => if key y < key b then y else b) x)

def pyMaxBy (key : α → ℚ) : List α → Option α
  | [] => none
  | x :: xs => some (xs.foldl (fun b y => if key b < key y then y else b) x)

/-- Build a found `LiquidityPoolResult` around a level. -/
def lpMake (pt : PoolType) (level : ℚ) (buffer_percent : ℚ) : LiquidityPoolResult :=
  let buffer := level * buffer_percent / 100
  { found := true, pool_type := pt, level := level
    zone_top := level + buffer, zone_bottom := level - buffer, touch_count := 1 }

/-- Embedding of `detect_liquidity_pool(df, lookback, swing_period, buffer_percent)`. -/
def detect_liquidity_pool (df : Option (List Candle)) (lookback : Nat)
    (swing_period : Nat) (buffer_percent : ℚ) : Option LiquidityPoolResult :=
  match df with
  | none => none
  | some d =>
    if d.length < lookback then none
    else
      let w := takeLast lookback d
      let candidates := (List.range w.length).filter
        (fun i => swing_period ≤ i ∧ i + swing_period < w.length)
      let swing_highs := candidates.filterMap
        (fun i => if isSwingHigh w swing_period i
                  then some (i, (w.getD i cDefault).high) else none)
      let swing_lows := candidates.filterMap
        (fun i => if isSwingLow w swing_period i
                  then some (i, (w.getD i cDefault).low) else none)
      let current_price := (w.getD (w.length - 1) cDefault).close
      let closest_high :=
        pyMinBy (fun x : Nat × ℚ => x.2 - current_price)
          (swing_highs.filter (fun x => current_price < x.2))
      let closest_low :=
        pyMaxBy (fun x : Nat × ℚ => x.2)
          (swing_lows.filter (fun x => x.2 < current_price))
      match closest_high, closest_low with
      | some ch, some cl =>
        let dist_high := ch.2 - current_price
        let dist_low := current_price - cl.2
        if dist_high < dist_low then some (lpMake .SWING_HIGH ch.2 buffer_percent)
        else some (lpMake .SWING_LOW cl.2 buffer_percent)
      | some ch, none => some (lpMake .SWING_HIGH ch.2 buffer_percent)
      | none, some cl => some (lpMake .SWING_LOW cl.2 buffer_percent)
      | none, none => some lpNotFoundR

/-! ## Signals (`src/strategies.py`, `src/trend_analyzer.py`) -/

inductive Action where
  | BUY
  | SELL
  | HOLD
deriving DecidableEq, Repr

/-- Strategy names (the `name` property strings). -/
inductive StratName where
  | RSI_EMA
  | BollingerBand
  | ICT_FVG
  | ICT_Confluence
deriving DecidableEq, Repr

/-- The human-readable `reason` strings, modelled as a tagged value
carrying the numbers the source interpolates into the f-string. -/
inductive Reason where
  -- shared
  | noPrice                                   -- "현재가 정보 없음"
  | dataShort                                 -- "데이터 부족"
  | noOhlcv                                   -- "OHLCV 데이터 없음"
  | takeProfitHit (rate target : ℚ)           -- "익절: …"
  | stopLossHit (rate limit : ℚ)              -- "손절: …"
  | holdPosition (rate tp sl : ℚ)             -- "포지션 유지: …"
  -- RSI+EMA strategy
  | rsiFailed                                 -- "RSI 계산 실패"
  | rsiOversoldUptrend (rsi : Option ℚ)       -- "RSI … 과매도 + 상승추세"
  | goldenCrossRSI (rsi : Option ℚ)           -- "EMA 골든크로스 + RSI …"
  | rsiOverboughtDowntrend (rsi : Option ℚ)   -- "RSI … 과매수 + 하락추세"
  | deadCrossRSI (rsi : Option ℚ)             -- "EMA 데드크로스 + RSI …"
  | neutral (rsi : Option ℚ) (uptrend downtrend : Bool) -- "RSI …, …추세"
  -- Bollinger strategy
  | noBB                                      -- "볼린저밴드 데이터 없음"
  | belowLowerBand (price lower : ℚ)          -- "가격 … < 하단밴드 …"
  | aboveUpperBand (price upper : ℚ)          -- "가격 … > 상단밴드 …"
  | insideBand (percent_b : ℚ)                -- "밴드 내 위치: …"
  -- FVG strategy
  | fvgMissing                                -- "FVG 미발견"
  | fvgStop (price sl : ℚ)                    -- "손절: 현재가 … < SL …"
  | fvgEntry (bottom top rr : ℚ)              -- "FVG 진입: 갭 …"
  | fvgWait (bottom top : ℚ)                  -- "대기: 갭 … 터치 대기 중"
  | fvgBearishWait                            -- "하락 FVG 감지 (매도 대기)"
  | condNotMet                                -- "조건 미충족"
  -- ICT confluence strategy
  | ictConfluence (score ob fvg lp : Nat) (rr : ℚ)   -- "ICT Confluence …점 …"
  | ictRRLow (score : Nat) (rr minrr : ℚ)     -- "점수 충족(…) but 손익비 부족"
  | ictBearish (score : Nat)                  -- "ICT Bearish 신호 (…점) - 매수 대기"
  | ictScoreLow (score : Nat) (threshold : Int) (ob fvg lp : Nat) -- "Confluence …점 < …점"
  -- trend analyzer
  | tBuy (cross : Bool) (rsi : Option ℚ)     -- "골든크로스/EMA 정배열 + RSI …"
  | tSell (cross : Bool) (rsi : Option ℚ)    -- "데드크로스/EMA 역배열 + RSI …"
  | tTakeProfit (rate : ℚ)                    -- "익절: …"
  | tStopLoss (rate : ℚ)                      -- "손절: …"
  | tNoSignal (rsi : Option ℚ)                -- "신호 없음 (RSI: …)"
  -- hybrid composer
  | hIctTakeProfit (rate : ℚ)                 -- "ICT 익절: …"
  | hIctStopLoss (rate : ℚ)                   -- "ICT 손절: …"
  | hTrendTakeProfit (rate : ℚ)               -- "추세 익절: …"
  | hTrendStopLoss (rate : ℚ)                 -- "추세 손절: …"
  | hHoldPosition (rate : ℚ)                  -- "포지션 유지: …"
  | hIctEntry (inner : Reason)                -- "ICT: {ict_signal.reason}"
  | hTrendEntry (inner : Reason)              -- "추세: {trend_signal.reason}"
  | hNoSignal                                 -- "진입 신호 없음"
deriving DecidableEq, Repr

/-- The `Signal` record of strategies.py. -/
structure Signal where
  action : Action
  strategy : StratName
  confidence : ℚ
  reason : Reason
deriving DecidableEq, Repr

/-! ## `ICTStrategy` -/

structure ICTConfig where
  confluence_threshold : Int
  min_rr_ratio : ℚ
  take_profit : ℚ
  stop_loss : ℚ
deriving DecidableEq, Repr

/-- The per-criterion score breakdown dict returned alongside the total. -/
structure ScoreDetails where
  order_block : Nat
  fvg : Nat
  liquidity_pool : Nat
  price_in_zone : Nat
deriving DecidableEq, Repr

/-- Embedding of `ICTStrategy.calculate_confluence_score(ob_result, fvg_result,
lp_result, current_price)`.  The inputs may each be `None` (the source
tests `if ob_result and ob_result.found`); `if current_price:` is a float
truthiness test, so `None` and `0` both skip the zone bonuses. -/
def calculate_confluence_score (ob_result : Option OrderBlockResult)
    (fvg_result : Option FVGResult) (lp_result : Option LiquidityPoolResult)
    (current_price : Option ℚ) : Nat × ScoreDetails :=
  let d0 : ScoreDetails := ⟨0, 0, 0, 0⟩
  -- 1. Order Block (+30점, +10점 if price inside the zone)
  let s1 : Nat × ScoreDetails :=
    match ob_result with
    | some ob =>
      if ob.found then
        let base := (30, { d0 with order_block := 30 })
        match current_price with
        | some p =>
          if p ≠ 0 ∧ ob.zone_bottom ≤ p ∧ p ≤ ob.zone_top then
            (base.1 + 10, { base.2 with price_in_zone := base.2.price_in_zone + 10 })
          else base
        | none => base
      else (0, d0)
    | none => (0, d0)
  -- 2. Fair Value Gap (+30점, +10점 if price inside the gap)
  let s2 : Nat × ScoreDetails :=
    match fvg_result with
    | some fr =>
      if fr.found then
        let base := (s1.1 + 30, { s1.2 with fvg := 30 })
        match current_price with
        | some p =>
          if p ≠ 0 ∧ fr.gap_bottom ≤ p ∧ p ≤ fr.gap_top then
            (base.1 + 10, { base.2 with price_in_zone := base.2.price_in_zone + 10 })
          else base
        | none => base
      else s1
    | none => s1
  -- 3. Liquidity Pool (+20점)
  let s3 : Nat × ScoreDetails :=
    match lp_result with
    | some lp => if lp.found then (s2.1 + 20, { s2.2 with liquidity_pool := 20 }) else s2
    | none => s2
  s3

/-- Does an optional order-block result count as found (`ob and ob.found`)? -/
def obFoundB (r : Option OrderBlockResult) : Bool :=
  match r with
  | some ob => ob.found
  | none => false

def fvgFoundB (r : Option FVGResult) : Bool :=
  match r with
  | some fr => fr.found
  | none => false

def lpFoundB (r : Option LiquidityPoolResult) : Bool :=
  match r with
  | some lp => lp.found
  | none => false

/-- Embedding of `ICTStrategy.analyze`.  Defaults used for the internal indicator calls:
`detect_order_block(df)` = (30, 2, 0.5), `detect_fvg(df, 0.05)` lookback 50,
`detect_liquidity_pool(df)` = (50, 5, 0.1). -/
def ict_analyze (cfg : ICTConfig) (ohlcv_df : Option (List Candle))
    (current_price : Option ℚ) (entry_price : Option ℚ) (in_position : Bool)
    (ob_result : Option OrderBlockResult) (fvg_result : Option FVGResult)
    (lp_result : Option LiquidityPoolResult) : Signal :=
  match current_price with
  | none => ⟨.HOLD, .ICT_Confluence, 0, .noPrice⟩
  | some p =>
    -- 포지션 보유 중인 경우 - 익절/손절 판단
    if in_position ∧ truthyQ entry_price = true ∧ 0 < entry_price.getD 0 then
      let e := entry_price.getD 0
      let profit_rate := (p - e) / e * 100
      if cfg.take_profit ≤ profit_rate then
        ⟨.SELL, .ICT_Confluence, 95/100, .takeProfitHit profit_rate cfg.take_profit⟩
      else if profit_rate ≤ -cfg.stop_loss then
        ⟨.SELL, .ICT_Confluence, 95/100, .stopLossHit profit_rate cfg.stop_loss⟩
      else
        ⟨.HOLD, .ICT_Confluence, 6/10, .holdPosition profit_rate cfg.take_profit cfg.stop_loss⟩
    else
      match ohlcv_df with
      | none => ⟨.HOLD, .ICT_Confluence, 0, .noOhlcv⟩
      | some df =>
        let obr := match ob_result with
          | none => detect_order_block (some df) 30 2 (1/2)
          | some x => some x
        let fvgr := match fvg_result with
          | none => detect_fvg (some df) (1/20) 50
          | some x => some x
        let lpr := match lp_result with
          | none => detect_liquidity_pool (some df) 50 5 (1/10)
          | some x => some x
        let sd := calculate_confluence_score obr fvgr lpr (some p)
        let score := sd.1
        let details := sd.2
        if cfg.confluence_threshold ≤ (score : Int) then
          let direction : Direction :=
            if obFoundB obr then ((obr.getD obNotFoundR).direction)
            else if fvgFoundB fvgr then ((fvgr.getD fvgNotFoundR).direction)
            else .BULLISH
          if direction = .BULLISH then
            let stop_loss_price := p * (1 - cfg.stop_loss / 100)
            let take_profit_price := p * (1 + cfg.take_profit / 100)
            let risk := p - stop_loss_price
            let reward := take_profit_price - p
            let rr_ratio := if 0 < risk then reward / risk else 0
            if ICTConfig.min_rr_ratio cfg ≤ rr_ratio then
              let confidence := pyMinQ (95/100) (some (7/10 + ((score : ℚ) - 80) * (1/100)))
              ⟨.BUY, .ICT_Confluence, confidence,
                .ictConfluence score details.order_block details.fvg details.liquidity_pool rr_ratio⟩
            else
              ⟨.HOLD, .ICT_Confluence, 1/2, .ictRRLow score rr_ratio (ICTConfig.min_rr_ratio cfg)⟩
          else if direction = .BEARISH then
            ⟨.HOLD, .ICT_Confluence, 4/10, .ictBearish score⟩
          else
            ⟨.HOLD, .ICT_Confluence, 3/10,
              .ictScoreLow score cfg.confluence_threshold details.order_block details.fvg details.liquidity_pool⟩
        else
          ⟨.HOLD, .ICT_Confluence, 3/10,
            .ictScoreLow score cfg.confluence_threshold details.order_block details.fvg details.liquidity_pool⟩

/-! ## `RSIEMAStrategy` -/

structure RSIEMAConfig where
  rsi_period : Nat
  rsi_oversold : ℚ
  rsi_overbought : ℚ
  ema_fast : Nat
  ema_slow : Nat
deriving DecidableEq, Repr

/-- Embedding of `RSIEMAStrategy.analyze(ohlcv_df, current_price)`. -/
def rsi_ema_analyze (cfg : RSIEMAConfig) (ohlcv_df : Option (List Candle))
    (current_price : Option ℚ) : Signal :=
  match ohlcv_df with
  | none => ⟨.HOLD, .RSI_EMA, 0, .dataShort⟩
  | some df =>
    if df.length < 30 then ⟨.HOLD, .RSI_EMA, 0, .dataShort⟩
    else
      let prices := df.map Candle.close
      -- current_price = current_price or float(prices.iloc[-1])
      let p := if truthyQ current_price then current_price.getD 0 else lastD prices
      match calculate_rsi (some prices) cfg.rsi_period cfg.rsi_oversold cfg.rsi_overbought with
      | none => ⟨.HOLD, .RSI_EMA, 0, .rsiFailed⟩
      | some rsi =>
        let ema_fast_series := ewmSpan (cfg.ema_fast : ℚ) prices
        let ema_slow_series := ewmSpan (cfg.ema_slow : ℚ) prices
        let ema_fast_now := lastD ema_fast_series
        let ema_fast_prev := secondLastD ema_fast_series
        let ema_slow_now := lastD ema_slow_series
        let ema_slow_prev := secondLastD ema_slow_series
        let golden_cross := ema_fast_prev ≤ ema_slow_prev ∧ ema_slow_now < ema_fast_now
        let death_cross := ema_slow_prev ≤ ema_fast_prev ∧ ema_fast_now < ema_slow_now
        let is_uptrend := ema_slow_now < p
        let is_downtrend := p < ema_slow_now
        if optLt rsi.value cfg.rsi_oversold = true ∧ is_uptrend then
          let confidence := pyMinQ (9/10)
            (rsi.value.map (fun v => 6/10 + (cfg.rsi_oversold - v) * (1/50)))
          ⟨.BUY, .RSI_EMA, confidence, .rsiOversoldUptrend rsi.value⟩
        else if golden_cross ∧ optLt rsi.value 50 = true then
          ⟨.BUY, .RSI_EMA, 85/100, .goldenCrossRSI rsi.value⟩
        else if optGt rsi.value cfg.rsi_overbought = true ∧ is_downtrend then
          let confidence := pyMinQ (9/10)
            (rsi.value.map (fun v => 6/10 + (v - cfg.rsi_overbought) * (1/50)))
          ⟨.SELL, .RSI_EMA, confidence, .rsiOverboughtDowntrend rsi.value⟩
        else if death_cross ∧ optGt rsi.value 50 = true then
          ⟨.SELL, .RSI_EMA, 85/100, .deadCrossRSI rsi.value⟩
        else
          ⟨.HOLD, .RSI_EMA, 1/2, .neutral rsi.value (decide is_uptrend) (decide is_downtrend)⟩

/-! ## `BollingerBandStrategy` -/

/-- Embedding of `BollingerBandStrategy.analyze(bb)`. -/
def bollinger_strategy_analyze (bb : Option BollingerBandsResult) : Signal :=
  match bb with
  | none => ⟨.HOLD, .BollingerBand, 0, .noBB⟩
  | some b =>
    if b.is_below_lower then
      let confidence := min 1 (max (1/2) (1 - b.percent_b))
      ⟨.BUY, .BollingerBand, confidence, .belowLowerBand b.current_price b.lower⟩
    else if b.is_above_upper then
      let confidence := min 1 (max (1/2) b.percent_b)
      ⟨.SELL, .BollingerBand, confidence, .aboveUpperBand b.current_price b.upper⟩
    else
      ⟨.HOLD, .BollingerBand, 1/2, .insideBand b.percent_b⟩

/-! ## `FVGStrategy` -/

/-- Tail of `FVGStrategy.analyze` once an FVG result is at hand.
(The `_active_fvg` debug cache carries no decision weight and is not
modelled.) -/
def fvgStrategyCont (current_price : Option ℚ) (fr : Option FVGResult) : Signal :=
  match fr with
  | none => ⟨.HOLD, .ICT_FVG, 3/10, .fvgMissing⟩
  | some r =>
    if r.found = false then ⟨.HOLD, .ICT_FVG, 3/10, .fvgMissing⟩
    else
      match current_price with
      | none => ⟨.HOLD, .ICT_FVG, 0, .noPrice⟩
      | some p =>
        if r.direction = .BULLISH then
          if p < r.stop_loss then
            ⟨.SELL, .ICT_FVG, 9/10, .fvgStop p r.stop_loss⟩
          else if p ≤ r.gap_top ∧ r.gap_bottom ≤ p then
            let risk := p - r.stop_loss
            let reward := r.take_profit - p
            let rr_ratio := if 0 < risk then reward / risk else 0
            let confidence := pyMinQ (9/10) (some (6/10 + rr_ratio * (1/10)))
            ⟨.BUY, .ICT_FVG, confidence, .fvgEntry r.gap_bottom r.gap_top rr_ratio⟩
          else if r.gap_top < p then
            ⟨.HOLD, .ICT_FVG, 1/2, .fvgWait r.gap_bottom r.gap_top⟩
          else if r.direction = .BEARISH then
            ⟨.HOLD, .ICT_FVG, 4/10, .fvgBearishWait⟩
          else
            ⟨.HOLD, .ICT_FVG, 3/10, .condNotMet⟩
        else if r.direction = .BEARISH then
          ⟨.HOLD, .ICT_FVG, 4/10, .fvgBearishWait⟩
        else
          ⟨.HOLD, .ICT_FVG, 3/10, .condNotMet⟩

/-- Embedding of `FVGStrategy.analyze(ohlcv_df, current_price, fvg_result)`;
`min_gap_percent` is the constructor argument (default 0.05). -/
def fvg_strategy_analyze (min_gap_percent : ℚ) (ohlcv_df : Option (List Candle))
    (current_price : Option ℚ) (fvg_result : Option FVGResult) : Signal :=
  match fvg_result, ohlcv_df with
  | none, none => ⟨.HOLD, .ICT_FVG, 0, .noOhlcv⟩
  | none, some df => fvgStrategyCont current_price (detect_fvg (some df) min_gap_percent 50)
  | some r, _ => fvgStrategyCont current_price (some r)

/-! ## `TrendFollowingAnalyzer` (`src/trend_analyzer.py`) -/

structure TrendConfig where
  rsi_period : Nat
  ema_fast : Nat
  ema_slow : Nat
  rsi_oversold : ℚ
  rsi_overbought : ℚ
  take_profit : ℚ
  stop_loss : ℚ
deriving DecidableEq, Repr

structure TrendSignal where
  action : Action
  confidence : ℚ
  reason : Reason
  rsi : Option ℚ
  ema_fast : ℚ
  ema_slow : ℚ
  entry_price : ℚ
deriving DecidableEq, Repr

/-- The `TrendFollowingAnalyzer.calculate_rsi` series collapsed to its final row:
simple rolling means of gains/losses over the last `period` deltas.
The float quotient `gain/loss` is `inf` when losses are zero and gains are
not (RSI 100) and NaN (`none`) when both are zero; there is no inf-remap in
this variant of the RSI. -/
def trendRSILast (period : Nat) (closes : List ℚ) : Option ℚ :=
  let deltas := pdiff closes
  let gains := 0 :: deltas.map (fun d => if 0 < d then d else 0)
  let losses := 0 :: deltas.map (fun d => if d < 0 then -d else 0)
  let g := rollingMeanLast period gains
  let l := rollingMeanLast period losses
  if l = 0 then (if g = 0 then none else some 100)
  else some (100 - 100 / (1 + g / l))

/-- Embedding of `TrendFollowingAnalyzer.analyze(df, current_price, in_position,
entry_price)`. -/
def trend_analyze (cfg : TrendConfig) (df : Option (List Candle))
    (current_price : Option ℚ) (in_position : Bool)
    (entry_price : Option ℚ) : TrendSignal :=
  let min_length := max cfg.rsi_period cfg.ema_slow + 5
  match df with
  | none => ⟨.HOLD, 0, .dataShort, some 50, 0, 0, 0⟩
  | some d =>
    if d.length < min_length then ⟨.HOLD, 0, .dataShort, some 50, 0, 0, 0⟩
    else
      let closes := d.map Candle.close
      let current_rsi := trendRSILast cfg.rsi_period closes
      let ema_fast_series := ewmSpan (cfg.ema_fast : ℚ) closes
      let ema_slow_series := ewmSpan (cfg.ema_slow : ℚ) closes
      -- current_price = current_price or df['close'].iloc[-1]
      let p := if truthyQ current_price then current_price.getD 0 else lastD closes
      let ema_fast := lastD ema_fast_series
      let ema_slow := lastD ema_slow_series
      let prev_ema_fast := secondLastD ema_fast_series
      let prev_ema_slow := secondLastD ema_slow_series
      -- 포지션 보유 중 - 익절/손절 판단
      let exitSig : Option TrendSignal :=
        if in_position ∧ truthyQ entry_price = true ∧ 0 < entry_price.getD 0 then
          let e := entry_price.getD 0
          let profit_rate := (p - e) / e * 100
          if cfg.take_profit ≤ profit_rate then
            some ⟨.SELL, 95/100, .tTakeProfit profit_rate, current_rsi, ema_fast, ema_slow, p⟩
          else if profit_rate ≤ -cfg.stop_loss then
            some ⟨.SELL, 95/100, .tStopLoss profit_rate, current_rsi, ema_fast, ema_slow, p⟩
          else none
        else none
      match exitSig with
      | some s => s
      | none =>
        let golden_cross := prev_ema_fast ≤ prev_ema_slow ∧ ema_slow < ema_fast
        let bullish_rsi := optLt current_rsi 50 = true ∧ optGt current_rsi cfg.rsi_oversold = true
        if golden_cross ∨ (ema_slow < ema_fast ∧ bullish_rsi) then
          let confidence := pyMinQ (9/10) (current_rsi.map (fun v => 7/10 + (50 - v) / 100))
          ⟨.BUY, confidence, .tBuy (decide golden_cross) current_rsi, current_rsi, ema_fast, ema_slow, p⟩
        else
          let dead_cross := prev_ema_slow ≤ prev_ema_fast ∧ ema_fast < ema_slow
          let bearish_rsi := optGt current_rsi 50 = true ∧ optLt current_rsi cfg.rsi_overbought = true
          if in_position ∧ (dead_cross ∨ (ema_fast < ema_slow ∧ bearish_rsi)) then
            ⟨.SELL, 7/10, .tSell (decide dead_cross) current_rsi, current_rsi, ema_fast, ema_slow, p⟩
          else
            ⟨.HOLD, 3/10, .tNoSignal current_rsi, current_rsi, ema_fast, ema_slow, p⟩

/-! ## `HybridStrategy` (`src/hybrid_strategy.py`) -/

inductive StratType where
  | ICT
  | TREND
  | NONE
  | UNKNOWN
deriving DecidableEq, Repr

structure HybridSignal where
  action : Action
  strategy_type : StratType
  confidence : ℚ
  reason : Reason
  position_size_ratio : ℚ
  take_profit : ℚ
  stop_loss : ℚ
deriving DecidableEq, Repr

/-- Constructor parameters of `HybridStrategy` (defaults: 1.0, 0.05, 0.01,
2.0, 1.0, 0.3, 0.5). -/
structure HybridConfig where
  daily_target : ℚ
  ict_position_ratio : ℚ
  trend_position_ratio : ℚ
  ict_take_profit : ℚ
  ict_stop_loss : ℚ
  trend_take_profit : ℚ
  trend_stop_loss : ℚ
deriving DecidableEq, Repr

def defaultHybridConfig : HybridConfig :=
  { daily_target := 1, ict_position_ratio := 5/100, trend_position_ratio := 1/100
    ict_take_profit := 2, ict_stop_loss := 1
    trend_take_profit := 3/10, trend_stop_loss := 1/2 }

/-- The internal `ICTStrategy(confluence_threshold=50, min_rr_ratio=2.0, …)`. -/
def hybridICTConfig (cfg : HybridConfig) : ICTConfig :=
  { confluence_threshold := 50, min_rr_ratio := 2
    take_profit := cfg.ict_take_profit, stop_loss := cfg.ict_stop_loss }

/-- The internal `TrendFollowingAnalyzer(take_profit=…, stop_loss=…)` with
its default indicator parameters. -/
def hybridTrendConfig (cfg : HybridConfig) : TrendConfig :=
  { rsi_period := 14, ema_fast := 12, ema_slow := 26
    rsi_oversold := 30, rsi_overbought := 70
    take_profit := cfg.trend_take_profit, stop_loss := cfg.trend_stop_loss }

/-- The mutable daily statistics of `HybridStrategy`. -/
structure HybridState where
  daily_profit : ℚ
  trade_count : Nat
deriving DecidableEq, Repr

/-- Embedding of `HybridStrategy.is_target_achieved()`. -/
def is_target_achieved (cfg : HybridConfig) (st : HybridState) : Bool :=
  decide (cfg.daily_target ≤ st.daily_profit)

/-- Embedding of `HybridStrategy.get_position_size_multiplier()`. -/
def get_position_size_multiplier (cfg : HybridConfig) (st : HybridState) : ℚ :=
  if cfg.daily_target ≤ st.daily_profit then 1/2
  else if cfg.daily_target * (7/10) ≤ st.daily_profit then 3/4
  else 1

/-- Embedding of `HybridStrategy.analyze(df_1h, df_5m, current_price, in_position,
entry_price, position_strategy)`. -/
def hybrid_analyze (cfg : HybridConfig) (st : HybridState)
    (df_1h df_5m : Option (List Candle)) (current_price : Option ℚ)
    (in_position : Bool) (entry_price : Option ℚ)
    (position_strategy : Option StratType) : HybridSignal :=
  match current_price with
  | none => ⟨.HOLD, .NONE, 0, .noPrice, 0, 0, 0⟩
  | some p =>
    let size_mult := get_position_size_multiplier cfg st
    -- 포지션 보유 중 - 해당 전략으로 청산 판단
    if in_position ∧ truthyQ entry_price = true ∧ 0 < entry_price.getD 0 then
      let e := entry_price.getD 0
      let profit_rate := (p - e) / e * 100
      let exitSig : Option HybridSignal :=
        if position_strategy = some .ICT then
          if cfg.ict_take_profit ≤ profit_rate then
            some ⟨.SELL, .ICT, 95/100, .hIctTakeProfit profit_rate,
                  HybridConfig.ict_position_ratio cfg * size_mult, cfg.ict_take_profit, cfg.ict_stop_loss⟩
          else if profit_rate ≤ -cfg.ict_stop_loss then
            some ⟨.SELL, .ICT, 95/100, .hIctStopLoss profit_rate,
                  HybridConfig.ict_position_ratio cfg * size_mult, cfg.ict_take_profit, cfg.ict_stop_loss⟩
          else none
        else
          if cfg.trend_take_profit ≤ profit_rate then
            some ⟨.SELL, .TREND, 95/100, .hTrendTakeProfit profit_rate,
                  HybridConfig.trend_position_ratio cfg * size_mult, cfg.trend_take_profit, cfg.trend_stop_loss⟩
          else if profit_rate ≤ -cfg.trend_stop_loss then
            some ⟨.SELL, .TREND, 95/100, .hTrendStopLoss profit_rate,
                  HybridConfig.trend_position_ratio cfg * size_mult, cfg.trend_take_profit, cfg.trend_stop_loss⟩
          else none
      match exitSig with
      | some s => s
      | none =>
        -- 포지션 유지 (position_strategy or "UNKNOWN")
        ⟨.HOLD, position_strategy.getD .UNKNOWN, 1/2, .hHoldPosition profit_rate, 0, 0, 0⟩
    else
      -- 포지션 없음 - 새 진입 신호 탐색; 2. 추세 신호 확인 (5분봉)
      let trendStep : HybridSignal :=
        match df_5m with
        | none => ⟨.HOLD, .NONE, 3/10, .hNoSignal, 0, 0, 0⟩
        | some _ =>
          let trend_signal := trend_analyze (hybridTrendConfig cfg) df_5m (some p) false none
          if trend_signal.action = .BUY ∧ 6/10 ≤ trend_signal.confidence then
            -- 목표 달성 후에는 추세 신호도 축소
            let size_mult2 := if is_target_achieved cfg st then size_mult * (1/2) else size_mult
            ⟨.BUY, .TREND, trend_signal.confidence, .hTrendEntry trend_signal.reason,
              HybridConfig.trend_position_ratio cfg * size_mult2, cfg.trend_take_profit, cfg.trend_stop_loss⟩
          else ⟨.HOLD, .NONE, 3/10, .hNoSignal, 0, 0, 0⟩
      -- 1. ICT 신호 우선 확인 (1시간봉)
      match df_1h with
      | none => trendStep
      | some _ =>
        if is_target_achieved cfg st then trendStep
        else
          let ict_signal := ict_analyze (hybridICTConfig cfg) df_1h (some p) none false none none none
          if ict_signal.action = .BUY ∧ 7/10 ≤ ict_signal.confidence then
            ⟨.BUY, .ICT, ict_signal.confidence, .hIctEntry ict_signal.reason,
              HybridConfig.ict_position_ratio cfg * size_mult, cfg.ict_take_profit, cfg.ict_stop_loss⟩
          else trendStep

/-! ## `RiskManager` (`src/risk_manager.py`) -/

/-- The `DailyStats` record (ints as ℤ, KRW amounts as ℚ). -/
structure DailyStats where
  date : String
  total_trades : Int
  total_wagered : ℚ
  total_profit : ℚ
  win_count : Int
  loss_count : Int
  rsi_trades : Int
  bb_trades : Int
  combined_trades : Int
deriving DecidableEq, Repr

/-- A freshly zeroed record for a day (the dataclass with its defaults). -/
def freshStats (today : String) : DailyStats :=
  { date := today, total_trades := 0, total_wagered := 0, total_profit := 0
    win_count := 0, loss_count := 0, rsi_trades := 0, bb_trades := 0
    combined_trades := 0 }

/-- The limits the manager is constructed with (`settings` fallbacks:
trade_amount=10000, max_daily_trades=100, max_daily_loss=50000,
scalping_stop_loss=0.5). -/
structure RMConfig where
  MAX_TRADE_AMOUNT : ℚ
  MAX_DAILY_TRADES : Int
  MAX_DAILY_LOSS : ℚ
  scalping_stop_loss : ℚ
deriving DecidableEq, Repr

/-- In-memory record plus the persisted JSON file (best-effort overwrite:
`_save_stats` replaces the file with the current record). -/
structure RMState where
  current_stats : DailyStats
  storage : Option DailyStats
deriving DecidableEq, Repr

/-- Embedding of `_save_stats()`. -/
def save_stats (s : RMState) : RMState := { s with storage := some s.current_stats }

/-- The distinguishable reason strings of `can_trade`, with the numbers the
source interpolates. -/
inductive CanTradeReason where
  | ok                                        -- "OK"
  | dailyTradesExceeded (maxTrades : Int)     -- "일일 거래 횟수 초과 (…회)"
  | dailyLossExceeded (lossAbs : ℚ)           -- "일일 손실 한도 초과 (₩…)"
  | amountExceeded (amount cap : ℚ)           -- "거래 금액 ₩… > 한도 ₩…"
  | potentialLossExceeded (headroom : ℚ)      -- "잠재 손실 포함 한도 초과 (여유: ₩…)"
deriving DecidableEq, Repr

/-- Embedding of `can_trade(amount)`.  `today` stands for `date.today().isoformat()`;
the rollover branch persists the zeroed record before any limit is
evaluated.  `if amount:` is a float truthiness test: `None` and `0` both
skip the per-amount gates. -/
def can_trade (cfg : RMConfig) (today : String) (s : RMState)
    (amount : Option ℚ) : RMState × Bool × CanTradeReason :=
  -- 날짜 변경 체크 (자동 리셋)
  let s := if s.current_stats.date ≠ today
           then save_stats { s with current_stats := freshStats today }
           else s
  -- 일일 거래 횟수 체크
  if cfg.MAX_DAILY_TRADES ≤ s.current_stats.total_trades then
    (s, false, .dailyTradesExceeded cfg.MAX_DAILY_TRADES)
  -- 일일 손실 체크
  else if s.current_stats.total_profit < -cfg.MAX_DAILY_LOSS then
    (s, false, .dailyLossExceeded |s.current_stats.total_profit|)
  -- 거래 금액 체크
  else if truthyQ amount then
    let a := amount.getD 0
    if cfg.MAX_TRADE_AMOUNT < a then
      (s, false, .amountExceeded a cfg.MAX_TRADE_AMOUNT)
    else
      -- 손실 가능성 체크 (손절가 기준, 슬리피지 여유 1.2배)
      let estimated_loss := a * (cfg.scalping_stop_loss / 100) * (12/10)
      let potential_total_profit := s.current_stats.total_profit - estimated_loss
      if potential_total_profit < -cfg.MAX_DAILY_LOSS then
        (s, false, .potentialLossExceeded (cfg.MAX_DAILY_LOSS + s.current_stats.total_profit))
      else (s, true, .ok)
  else (s, true, .ok)

/-- Substring test `needle in hay` for the lowercase strategy-name
classification. -/
def strHasSub (hay needle : List Char) : Bool :=
  (List.range (hay.length + 1)).any (fun k => needle.isPrefixOf (hay.drop k))

/-- The lowercase needles of the per-strategy classification. -/
def rsiChars : List Char := "rsi".data

def bbChars : List Char := "bb".data

def bollingerChars : List Char := "bollinger".data

/-- Embedding of `record_trade(amount, profit, strategy, won)`: increments
the counters of whatever record is in memory and persists. -/
def record_trade (s : RMState) (amount profit : ℚ) (strategy : String)
    (won : Option Bool) : RMState :=
  let st := s.current_stats
  let st := { st with total_trades := st.total_trades + 1
                      total_wagered := st.total_wagered + amount
                      total_profit := st.total_profit + profit }
  let w := match won with
    | some b => b
    | none => decide (0 < profit)
  let st := if w then { st with win_count := st.win_count + 1 }
            else { st with loss_count := st.loss_count + 1 }
  -- 전략별 카운트
  let sl := strategy.data.map Char.toLower
  let st :=
    if strHasSub sl rsiChars ∧ strHasSub sl bbChars then
      { st with combined_trades := st.combined_trades + 1 }
    else if strHasSub sl rsiChars then
      { st with rsi_trades := st.rsi_trades + 1 }
    else if strHasSub sl bbChars ∨ strHasSub sl bollingerChars then
      { st with bb_trades := st.bb_trades + 1 }
    else st
  save_stats { s with current_stats := st }

/-- Embedding of `emergency_stop(reason)`: saturates the day's trade counter at the
maximum and persists (no separate kill flag). -/
def emergency_stop (cfg : RMConfig) (s : RMState) : RMState :=
  save_stats { s with current_stats :=
    { s.current_stats with total_trades := cfg.MAX_DAILY_TRADES } }

/-- The state-mutating operations of the ledger, for same-day traces. -/
inductive RMOp where
  | record (amount profit : ℚ) (strategy : String) (won : Option Bool)
  | check (amount : Option ℚ)
  | stop
deriving DecidableEq, Repr

/-- One ledger operation applied to the state (`today` fixed). -/
def rmStep (cfg : RMConfig) (today : String) (s : RMState) : RMOp → RMState
  | .record a p strat w => record_trade s a p strat w
  | .check amt => (can_trade cfg today s amt).1
  | .stop => emergency_stop cfg s

/-- A same-day trace of ledger operations. -/
def rmRun (cfg : RMConfig) (today : String) (s : RMState)
    (ops : List RMOp) : RMState :=
  ops.foldl (rmStep cfg today) s

/-! ## Concrete inputs used by counterexamples and witnesses -/

/-- A candle whose four prices coincide (only closes matter to the trend
analyzer). -/
def mkFlat (q : ℚ) : Candle := ⟨q, q, q, q, 0, 0⟩

/-- A 31-candle 5-minute series: a strong rally followed by a mild pullback,
whose last row has the fast EMA above the slow EMA and RSI ≈ 41.7 — the
trend analyzer emits BUY with confidence 47/60 ≥ 0.6 on it. -/
def trendBuyCandles : List Candle :=
  ([100, 110, 120, 130, 140, 150, 160, 170, 180, 190, 200, 210, 220, 230,
    240, 250, 260, 261, 260, 261, 260, 261, 260, 261, 260, 261, 260, 260,
    259, 259, 258] : List ℚ).map mkFlat

/-- Twenty strictly increasing closes (no down-ticks), the zero-average-loss
RSI edge case. -/
def rising20 : List ℚ := (List.range 20).map (fun n => (n : ℚ) + 1)

/-- Six candles containing one bullish fair value gap (window 2–4, band
[100, 110]) whose newest candle (index 5) closes at 105, inside the band,
with its low (104) above the gap bottom. -/
def fvgCexCandles : List Candle :=
  [⟨10, 10, 10, 10, 0, 0⟩, ⟨10, 10, 10, 10, 0, 1⟩, ⟨95, 100, 90, 95, 0, 2⟩,
   ⟨100, 106, 99, 106, 0, 3⟩, ⟨112, 115, 110, 112, 0, 4⟩,
   ⟨112, 113, 104, 105, 0, 5⟩]

/-- The gap `detect_fvg` reports on `fvgCexCandles`. -/
def fvgCexResult : FVGResult :=
  { found := true, direction := .BULLISH, gap_top := 110, gap_bottom := 100
    stop_loss := 99, take_profit := 106, momentum_candle_time := some 3
    gap_size := 10, gap_percent := 10 }

/-- Concrete calendar days used by the risk-manager scenarios. -/
def day1 : String := "2025-01-01"

def day2 : String := "2025-01-02"

/-- The strategy-name string used by concrete recordings. -/
def stratRSI : String := "RSI"

/-- Ledger limits used in concrete risk-manager scenarios (the `settings`
defaults except for a small daily trade cap). -/
def cexCfg : RMConfig :=
  { MAX_TRADE_AMOUNT := 10000, MAX_DAILY_TRADES := 5
    MAX_DAILY_LOSS := 50000, scalping_stop_loss := 1/2 }

/-- An in-memory record that has over-run the daily trade cap (reachable:
`record_trade` increments unconditionally). -/
def cexOverState : RMState :=
  { current_stats := { date := "2025-01-01", total_trades := 6
                       total_wagered := 60000, total_profit := 0
                       win_count := 3, loss_count := 3, rsi_trades := 0
                       bb_trades := 0, combined_trades := 0 }
    storage := none }

/-- A record exhausted yesterday: the daily cap was reached on 2025-01-01. -/
def cexYesterdayState : RMState :=
  { current_stats := { date := "2025-01-01", total_trades := 5
                       total_wagered := 50000, total_profit := -2000
                       win_count := 2, loss_count := 3, rsi_trades := 0
                       bb_trades := 0, combined_trades := 0 }
    storage := none }

/-! ## C2 — the RSI zero-loss edge case -/

/-- C2: on the 20-candle strictly rising close series, `calculate_rsi(14)`
returns value 0 (flagged oversold), not a value at or near 100: with all
losses zero the float `rs` is `inf`, which line 131 remaps to 0, giving
`RSI = 100 - 100/(1+0) = 0`.  This is the divergence the claim exposes. -/
theorem rsi_zero_loss_series_returns_zero :
    calculate_rsi (some rising20) 14 30 70 =
      some { value := some 0, is_oversold := true, is_overbought := false } := by
  decide

/-! ## C8 — `can_trade` with a zero amount -/

/-- C8: a zero amount is falsy in `if amount:`, so `can_trade(0)` is
indistinguishable from `can_trade()` — the per-trade cap and the
worst-case-loss estimate are both skipped and only the trade-count and
realized-loss gates apply. -/
theorem can_trade_zero_amount_eq_absent (cfg : RMConfig) (today : String)
    (s : RMState) :
    can_trade cfg today s (some 0) = can_trade cfg today s none := by
  simp [can_trade, truthyQ]

/-! ## C10 — break-even trades count as losses -/

/-- C10: with `won=None`, `record_trade` infers `won = profit > 0`, so a
break-even trade (profit exactly 0) increments `loss_count` and leaves
`win_count` unchanged; in general the win/loss split follows the strict
sign test. -/
theorem record_trade_breakeven_counts_loss (s : RMState) (amount : ℚ)
    (strategy : String) :
    (record_trade s amount 0 strategy none).current_stats.loss_count
        = s.current_stats.loss_count + 1 ∧
    (record_trade s amount 0 strategy none).current_stats.win_count
        = s.current_stats.win_count ∧
    ∀ profit : ℚ,
      (record_trade s amount profit strategy none).current_stats.win_count
        = (if 0 < profit then s.current_stats.win_count + 1
           else s.current_stats.win_count) := by
  refine ⟨?_, ?_, fun profit => ?_⟩ <;>
    · simp only [record_trade, save_stats]
      split_ifs <;> simp_all

/-! ## C5 counterexample — `emergency_stop` can decrease the counter -/

/-- C5 counterexample: on a record whose `total_trades` (6) exceeds the
daily maximum (5), `emergency_stop` writes `total_trades = 5`, a strict
decrease — refuting "no operation decreases total_trades".  (Denial is
still monotone: the count never drops below the maximum; see the amended
theorem.) -/
theorem emergency_stop_decreases_trades_cex :
    (emergency_stop cexCfg cexOverState).current_stats.total_trades
      < cexOverState.current_stats.total_trades := by
  decide

/-! ## C1 counterexample — quarter-size trend entry after the target -/

/-- C1 counterexample: with the default configuration and the daily profit
(1.2) at or above the target (1.0), `analyze` emits a TREND BUY whose
`position_size_ratio` is `trend_position_ratio * 0.25` (the 0.5 multiplier
is halved again by `size_mult *= 0.5`), not the claimed
`trend_position_ratio * 0.5`. -/
theorem hybrid_halfsize_entry_cex :
    (defaultHybridConfig.daily_target ≤ (6/5 : ℚ)) ∧
    (let r := hybrid_analyze defaultHybridConfig ⟨6/5, 1⟩ none
        (some trendBuyCandles) (some 258) false none none
     r.action = .BUY ∧ r.strategy_type = .TREND ∧
     HybridSignal.position_size_ratio r = HybridConfig.trend_position_ratio defaultHybridConfig * (1/4) ∧
     HybridSignal.position_size_ratio r ≠ HybridConfig.trend_position_ratio defaultHybridConfig * (1/2)) := by
  decide

/-! ## C3 counterexample — a close inside the gap band does not fill it -/

/-- C3 counterexample: candle 5 of `fvgCexCandles` closes at 105, strictly
inside the gap band [100, 110] of the bullish gap at window 2–4, yet
`detect_fvg` still returns that very gap (its fill test is
`low ≤ gap_bottom`, and candle 5's low is 104 > 100). -/
theorem fvg_close_inside_band_cex :
    detect_fvg (some fvgCexCandles) (1/10) 50 = some fvgCexResult ∧
    (let c := fvgCexCandles.getD 5 cDefault
     fvgCexResult.gap_bottom < c.close ∧ c.close < fvgCexResult.gap_top ∧
     fvgCexResult.gap_bottom < c.low) := by
  decide

/-! ## Risk-ledger helper lemmas -/

/-- On a same-day call, `can_trade` leaves the ledger state untouched. -/
theorem can_trade_same_day (cfg : RMConfig) (today : String) (s : RMState)
    (amount : Option ℚ) (h : s.current_stats.date = today) :
    (can_trade cfg today s amount).1 = s := by
  simp only [can_trade, h, ne_eq, not_true_eq_false, if_false]
  split_ifs <;> rfl

/-- On a date change, `can_trade` replaces the in-memory record with the
zeroed one for today and persists it, whatever else it then decides. -/
theorem can_trade_state_rolled (cfg : RMConfig) (today : String) (s : RMState)
    (amount : Option ℚ) (h : s.current_stats.date ≠ today) :
    (can_trade cfg today s amount).1
      = save_stats { s with current_stats := freshStats today } := by
  simp only [can_trade, h, ne_eq, not_false_eq_true, if_true]
  split_ifs <;> rfl

/-- With the count at the cap on a same-day record, `can_trade` denies with
the trade-count reason, for any amount. -/
theorem can_trade_denied_at_cap (cfg : RMConfig) (today : String) (s : RMState)
    (amount : Option ℚ) (hd : s.current_stats.date = today)
    (hm : cfg.MAX_DAILY_TRADES ≤ s.current_stats.total_trades) :
    (can_trade cfg today s amount).2
      = (false, CanTradeReason.dailyTradesExceeded cfg.MAX_DAILY_TRADES) := by
  simp only [can_trade, hd, ne_eq, not_true_eq_false, if_false, hm, if_true]

/-- Recording a trade adds exactly one to the trade counter. -/
theorem record_trade_increments (s : RMState) (amount profit : ℚ)
    (strategy : String) (won : Option Bool) :
    (record_trade s amount profit strategy won).current_stats.total_trades
      = s.current_stats.total_trades + 1 := by
  simp only [record_trade, save_stats]
  split_ifs <;> rfl

/-- Recording a trade never touches the record's date. -/
theorem record_trade_keeps_date (s : RMState) (amount profit : ℚ)
    (strategy : String) (won : Option Bool) :
    (record_trade s amount profit strategy won).current_stats.date
      = s.current_stats.date := by
  simp only [record_trade, save_stats]
  split_ifs <;> rfl

/-- One same-day ledger operation keeps the date and keeps the counter at
or above the cap once it is there. -/
theorem rmStep_keeps_cap (cfg : RMConfig) (today : String) (s : RMState)
    (op : RMOp) (hd : s.current_stats.date = today)
    (hm : cfg.MAX_DAILY_TRADES ≤ s.current_stats.total_trades) :
    (rmStep cfg today s op).current_stats.date = today ∧
    cfg.MAX_DAILY_TRADES ≤ (rmStep cfg today s op).current_stats.total_trades := by
  cases op with
  | record a p strat w =>
    refine ⟨?_, ?_⟩
    · rw [rmStep, record_trade_keeps_date, hd]
    · rw [rmStep, record_trade_increments]
      omega
  | check amt =>
    rw [rmStep, can_trade_same_day cfg today s amt hd]
    exact ⟨hd, hm⟩
  | stop =>
    simp only [rmStep, emergency_stop, save_stats]
    exact ⟨hd, le_refl _⟩

/-- Same-day trace version of `rmStep_keeps_cap`. -/
theorem rmRun_keeps_cap (cfg : RMConfig) (today : String) (ops : List RMOp) :
    ∀ s : RMState, s.current_stats.date = today →
      cfg.MAX_DAILY_TRADES ≤ s.current_stats.total_trades →
      (rmRun cfg today s ops).current_stats.date = today ∧
      cfg.MAX_DAILY_TRADES ≤ (rmRun cfg today s ops).current_stats.total_trades := by
  induction ops with
  | nil => exact fun s hd hm => ⟨hd, hm⟩
  | cons op rest ih =>
    intro s hd hm
    obtain ⟨hd', hm'⟩ := rmStep_keeps_cap cfg today s op hd hm
    exact ih (rmStep cfg today s op) hd' hm'

/-! ## C4 — lazy rollover of the daily record -/

/-- C4: whenever `can_trade` runs while the stored record's date differs
from today, the in-memory record is replaced by the zeroed record for
today and persisted (for every amount, even when a limit then denies);
and, with a positive trade cap and a non-negative loss limit, a call
without an amount — e.g. the first call after yesterday's ledger was
exhausted — returns `(True, "OK")`. -/
theorem can_trade_lazy_rollover (cfg : RMConfig) (today : String)
    (s : RMState) (amount : Option ℚ)
    (hdate : s.current_stats.date ≠ today) :
    ((can_trade cfg today s amount).1.current_stats = freshStats today ∧
     (can_trade cfg today s amount).1.storage = some (freshStats today)) ∧
    (truthyQ amount = false → 0 < cfg.MAX_DAILY_TRADES →
      0 ≤ cfg.MAX_DAILY_LOSS →
      (can_trade cfg today s amount).2 = (true, CanTradeReason.ok)) := by
  constructor
  · rw [can_trade_state_rolled cfg today s amount hdate]
    exact ⟨rfl, rfl⟩
  · intro ha hmax hloss
    simp only [can_trade, hdate, ne_eq, not_false_eq_true, if_true, ha,
      save_stats, freshStats]
    rw [if_neg (by omega), if_neg (by simp; linarith), if_neg (by simp)]

/-- Witness for C4: yesterday's exhausted ledger (5/5 trades recorded on
2025-01-01) rolls over and trades again on 2025-01-02. -/
theorem can_trade_lazy_rollover_witness :
    ((can_trade cexCfg day2 cexYesterdayState none).1.current_stats
        = freshStats day2 ∧
     (can_trade cexCfg day2 cexYesterdayState none).1.storage
        = some (freshStats day2)) ∧
    (can_trade cexCfg day2 cexYesterdayState none).2
        = (true, CanTradeReason.ok) := by
  have h := can_trade_lazy_rollover cexCfg day2 cexYesterdayState none
    (by decide)
  exact ⟨h.1, h.2 (by decide) (by decide) (by decide)⟩

/-! ## C9 — `record_trade` frame conditions on the date -/

/-- C9: `record_trade` only increments the counters of whatever record is
in memory — it neither checks nor changes the `date` field (even when the
record is stale); `emergency_stop` leaves the date alone too, and the date
is (re)written only by `can_trade`'s lazy rollover, which always leaves it
equal to today, acting as the identity on same-day state. -/
theorem record_trade_date_frame :
    (∀ (s : RMState) (amount profit : ℚ) (strategy : String) (won : Option Bool),
      (record_trade s amount profit strategy won).current_stats.date
          = s.current_stats.date ∧
      (record_trade s amount profit strategy won).current_stats.total_trades
          = s.current_stats.total_trades + 1 ∧
      (record_trade s amount profit strategy won).current_stats.total_wagered
          = s.current_stats.total_wagered + amount ∧
      (record_trade s amount profit strategy won).current_stats.total_profit
          = s.current_stats.total_profit + profit) ∧
    (∀ (cfg : RMConfig) (s : RMState),
      (emergency_stop cfg s).current_stats.date = s.current_stats.date) ∧
    (∀ (cfg : RMConfig) (today : String) (s : RMState) (amount : Option ℚ),
      (can_trade cfg today s amount).1.current_stats.date = today ∧
      (s.current_stats.date = today → (can_trade cfg today s amount).1 = s)) := by
  refine ⟨fun s amount profit strategy won => ?_, fun cfg s => rfl,
    fun cfg today s amount => ⟨?_, can_trade_same_day cfg today s amount⟩⟩
  · refine ⟨record_trade_keeps_date .., record_trade_increments .., ?_, ?_⟩ <;>
      · simp only [record_trade, save_stats]
        split_ifs <;> rfl
  · by_cases hd : s.current_stats.date = today
    · rw [can_trade_same_day cfg today s amount hd]
      exact hd
    · rw [can_trade_state_rolled cfg today s amount hd]
      rfl

/-- Witness for C9: recording a trade on a record dated yesterday leaves
the stale date in place. -/
theorem record_trade_date_frame_witness :
    (record_trade cexYesterdayState 10000 500 stratRSI none).current_stats.date
      = day1 ∧
    (can_trade cexCfg day1 cexYesterdayState (some 100)).1
      = cexYesterdayState :=
  ⟨(record_trade_date_frame.1 cexYesterdayState 10000 500 stratRSI none).1,
   (record_trade_date_frame.2.2 cexCfg day1 cexYesterdayState
      (some 100)).2 rfl⟩

/-! ## C5 (amended) — denial is monotone within a day -/

/-- C5, amended: once the day's record has `total_trades` at or above
`max_daily_trades`, after any same-day trace of ledger operations the
counter is still at or above the cap — `record_trade` only increments it,
and while `emergency_stop` can lower an above-cap counter, it only lowers
it to the cap itself — so every `can_trade` call, for any amount, keeps
returning `(False, trade-count reason)` until the date rolls over. -/
theorem daily_denial_monotonic_amended (cfg : RMConfig) (today : String)
    (s : RMState) (ops : List RMOp)
    (hd : s.current_stats.date = today)
    (hm : cfg.MAX_DAILY_TRADES ≤ s.current_stats.total_trades) :
    (cfg.MAX_DAILY_TRADES
        ≤ (rmRun cfg today s ops).current_stats.total_trades) ∧
    (∀ amount, (can_trade cfg today (rmRun cfg today s ops) amount).2
        = (false, CanTradeReason.dailyTradesExceeded cfg.MAX_DAILY_TRADES)) ∧
    (∀ (t : RMState) (a p : ℚ) (strat : String) (w : Option Bool),
        (record_trade t a p strat w).current_stats.total_trades
          = t.current_stats.total_trades + 1) := by
  obtain ⟨hd', hm'⟩ := rmRun_keeps_cap cfg today ops s hd hm
  exact ⟨hm',
    fun amount => can_trade_denied_at_cap cfg today _ amount hd' hm',
    fun t a p strat w => record_trade_increments t a p strat w⟩

/-- Witness for C5: after a same-day trace (a further recorded trade, an
emergency stop and a probe), the exhausted ledger still denies. -/
theorem daily_denial_monotonic_witness :
    cexCfg.MAX_DAILY_TRADES ≤
      (rmRun cexCfg day1 cexOverState
        [.record 100 (-50) stratRSI none, .stop, .check none]).current_stats.total_trades ∧
    (can_trade cexCfg day1
        (rmRun cexCfg day1 cexOverState
          [.record 100 (-50) stratRSI none, .stop, .check none]) (some 9999)).2
      = (false, CanTradeReason.dailyTradesExceeded cexCfg.MAX_DAILY_TRADES) := by
  have h := daily_denial_monotonic_amended cexCfg day1 cexOverState
    [.record 100 (-50) stratRSI none, .stop, .check none] (by decide) (by decide)
  exact ⟨h.1, h.2.1 (some 9999)⟩

/-! ## C6 — confluence score bounds -/

/-- C6: for all (possibly absent) indicator results and any current price,
the confluence score is in [0, 100], and 100 is attained only when the
order block, FVG and liquidity pool are all found and the price lies
inside both the OB zone and the FVG gap band. -/
theorem confluence_score_bounds (obr : Option OrderBlockResult)
    (fvgr : Option FVGResult) (lpr : Option LiquidityPoolResult)
    (cp : Option ℚ) :
    0 ≤ (calculate_confluence_score obr fvgr lpr cp).1 ∧
    (calculate_confluence_score obr fvgr lpr cp).1 ≤ 100 ∧
    ((calculate_confluence_score obr fvgr lpr cp).1 = 100 →
      obFoundB obr = true ∧ fvgFoundB fvgr = true ∧ lpFoundB lpr = true ∧
      ∃ p, cp = some p ∧
        (obr.getD obNotFoundR).zone_bottom ≤ p ∧
        p ≤ (obr.getD obNotFoundR).zone_top ∧
        (fvgr.getD fvgNotFoundR).gap_bottom ≤ p ∧
        p ≤ (fvgr.getD fvgNotFoundR).gap_top) := by
  rcases obr with _ | ob <;> rcases fvgr with _ | fvg <;>
    rcases lpr with _ | lp <;> rcases cp with _ | p <;>
    simp only [calculate_confluence_score, obFoundB, fvgFoundB, lpFoundB,
      Option.getD_some, Option.getD_none] <;>
    first
      | (split_ifs <;> simp_all)
      | simp_all

/-! ## C6 witness inputs -/

def obW : OrderBlockResult :=
  { found := true, direction := .BULLISH, level := 90, zone_top := 110
    zone_bottom := 90, strength := 2, candle_time := none }

def fvgW : FVGResult :=
  { found := true, direction := .BULLISH, gap_top := 105, gap_bottom := 95
    stop_loss := 94, take_profit := 106, momentum_candle_time := none
    gap_size := 10, gap_percent := 10 }

def lpW : LiquidityPoolResult :=
  { found := true, pool_type := .SWING_HIGH, level := 120, zone_top := 121
    zone_bottom := 119, touch_count := 1 }

/-- Witness for C6: price 100 inside the OB zone [90, 110] and the FVG band
[95, 105] with all three detectors found scores exactly 100. -/
theorem confluence_score_bounds_witness :
    obFoundB (some obW) = true ∧ fvgFoundB (some fvgW) = true ∧
    lpFoundB (some lpW) = true ∧
    ∃ p, (some (100 : ℚ)) = some p ∧
      ((some obW).getD obNotFoundR).zone_bottom ≤ p ∧
      p ≤ ((some obW).getD obNotFoundR).zone_top ∧
      ((some fvgW).getD fvgNotFoundR).gap_bottom ≤ p ∧
      p ≤ ((some fvgW).getD fvgNotFoundR).gap_top :=
  (confluence_score_bounds (some obW) (some fvgW) (some lpW) (some 100)).2.2
    (by decide)

/-! ## C1 (amended) — position sizing of new entries -/

/-- C1, amended: `get_position_size_multiplier` is 0.5 at or above the
daily target, 0.75 between 70% and 100% of it, and 1.0 below 70%; while
the target is not yet met, every BUY entry of `analyze` (no open position)
is sized at its strategy's configured ratio times that multiplier.  Once
the target is met, however, ICT entries are suppressed outright and TREND
entries are halved a second time (`size_mult *= 0.5`), so every BUY entry
is a TREND entry sized at `trend_position_ratio * 0.25` — not the 0.5
multiple the original claim states. -/
theorem hybrid_position_sizing_amended (cfg : HybridConfig) (st : HybridState) :
    (cfg.daily_target ≤ st.daily_profit →
      get_position_size_multiplier cfg st = 1/2) ∧
    (¬ cfg.daily_target ≤ st.daily_profit →
      cfg.daily_target * (7/10) ≤ st.daily_profit →
      get_position_size_multiplier cfg st = 3/4) ∧
    (¬ cfg.daily_target ≤ st.daily_profit →
      ¬ cfg.daily_target * (7/10) ≤ st.daily_profit →
      get_position_size_multiplier cfg st = 1) ∧
    (∀ (d1 d5 : Option (List Candle)) (cp ep : Option ℚ) (ps : Option StratType),
      cfg.daily_target ≤ st.daily_profit →
      (hybrid_analyze cfg st d1 d5 cp false ep ps).action = .BUY →
      (hybrid_analyze cfg st d1 d5 cp false ep ps).strategy_type = .TREND ∧
      HybridSignal.position_size_ratio (hybrid_analyze cfg st d1 d5 cp false ep ps)
        = HybridConfig.trend_position_ratio cfg * (1/4)) ∧
    (∀ (d1 d5 : Option (List Candle)) (cp ep : Option ℚ) (ps : Option StratType),
      ¬ cfg.daily_target ≤ st.daily_profit →
      (hybrid_analyze cfg st d1 d5 cp false ep ps).action = .BUY →
      ((hybrid_analyze cfg st d1 d5 cp false ep ps).strategy_type = .ICT ∧
        HybridSignal.position_size_ratio (hybrid_analyze cfg st d1 d5 cp false ep ps)
          = HybridConfig.ict_position_ratio cfg * get_position_size_multiplier cfg st) ∨
      ((hybrid_analyze cfg st d1 d5 cp false ep ps).strategy_type = .TREND ∧
        HybridSignal.position_size_ratio (hybrid_analyze cfg st d1 d5 cp false ep ps)
          = HybridConfig.trend_position_ratio cfg * get_position_size_multiplier cfg st)) := by
  refine ⟨fun h => by simp [get_position_size_multiplier, h],
    fun h h7 => by simp [get_position_size_multiplier, h, h7],
    fun h h7 => by simp [get_position_size_multiplier, h, h7],
    ?_, ?_⟩
  · intro d1 d5 cp ep ps htgt
    have hach : is_target_achieved cfg st = true := by
      simp [is_target_achieved, htgt]
    have hmult : get_position_size_multiplier cfg st = 1/2 := by
      simp [get_position_size_multiplier, htgt]
    rcases cp with _ | p
    · intro hbuy
      simp only [hybrid_analyze] at hbuy
      exact absurd hbuy (by decide)
    · simp only [hybrid_analyze, hach, hmult, Bool.false_eq_true, false_and,
        if_false, if_true]
      rcases d1 with _ | l1 <;> rcases d5 with _ | l5 <;>
        intro hbuy <;>
        split_ifs at hbuy ⊢ <;>
        simp_all <;>
        exact Or.inl (by norm_num)
  · intro d1 d5 cp ep ps htgt
    have hach : is_target_achieved cfg st = false := by
      simp [is_target_achieved, htgt]
    rcases cp with _ | p
    · intro hbuy
      simp only [hybrid_analyze] at hbuy
      exact absurd hbuy (by decide)
    · simp only [hybrid_analyze, hach, Bool.false_eq_true, false_and,
        if_false, if_true]
      rcases d1 with _ | l1 <;> rcases d5 with _ | l5 <;>
        intro hbuy <;>
        split_ifs at hbuy ⊢ <;>
        simp_all

/-- Witness for C1: the claim's own concrete scenario — daily_target = 1.0
and daily_profit = 1.2 give multiplier 0.5. -/
theorem hybrid_position_sizing_witness :
    get_position_size_multiplier defaultHybridConfig ⟨6/5, 1⟩ = 1/2 :=
  (hybrid_position_sizing_amended defaultHybridConfig ⟨6/5, 1⟩).1 (by decide)

/-! ## C3 (amended) — the gap the scan returns is unfilled in the code's
sense (`low ≤ gap_bottom`) -/

/-- Whatever `fvgCheckAt` accepts is a found result. -/
theorem fvgCheckAt_found (w : List Candle) (mgp : ℚ) (k : Nat) (r : FVGResult)
    (h : fvgCheckAt w mgp k = some r) : r.found = true := by
  simp only [fvgCheckAt] at h
  split_ifs at h <;>
    first
      | exact Option.noConfusion h
      | (obtain rfl : _ = r := Option.some.inj h; rfl)

/-- A bullish result accepted at window `k` records that window's band and
passed the fill scan: no candle after `k` has a low at or below the gap
bottom. -/
theorem fvgCheckAt_bullish_unfilled (w : List Candle) (mgp : ℚ) (k : Nat)
    (r : FVGResult) (h : fvgCheckAt w mgp k = some r)
    (hd : r.direction = Direction.BULLISH) :
    r.gap_bottom = (w.getD (k - 2) cDefault).high ∧
    r.gap_top = (w.getD k cDefault).low ∧
    ∀ c ∈ w.drop (k + 1), r.gap_bottom < c.low := by
  simp only [fvgCheckAt] at h
  split_ifs at h with h1 h2 h3 h4 h5 h6 <;>
    try exact Option.noConfusion h
  · -- bullish accept branch
    obtain rfl : _ = r := Option.some.inj h
    refine ⟨rfl, rfl, fun c hc => ?_⟩
    by_contra hlt
    exact h3 (List.any_eq_true.mpr ⟨c, hc, by
      simpa using not_lt.mp hlt⟩)
  · -- bearish accept branch contradicts the direction hypothesis
    obtain rfl : _ = r := Option.some.inj h
    exact absurd hd (by simp)

/-- The backward scan only ever returns a found result it obtained from
`fvgCheckAt` at some window `k` with `3 ≤ k ≤ i`. -/
theorem fvgGo_found_spec (w : List Candle) (mgp : ℚ) :
    ∀ (i : Nat) (r : FVGResult), fvgGo w mgp i = r → r.found = true →
      ∃ k, 3 ≤ k ∧ k ≤ i ∧ fvgCheckAt w mgp k = some r := by
  intro i
  induction i with
  | zero =>
    intro r h hf
    rw [fvgGo] at h
    subst h
    exact absurd hf (by simp [fvgNotFoundR])
  | succ n ih =>
    intro r h hf
    rw [fvgGo] at h
    split_ifs at h with h3
    · subst h
      exact absurd hf (by simp [fvgNotFoundR])
    · cases hc : fvgCheckAt w mgp (n + 1) with
      | some r' =>
        rw [hc] at h
        obtain rfl : r' = r := h
        exact ⟨n + 1, by omega, le_refl _, hc⟩
      | none =>
        rw [hc] at h
        obtain ⟨k, hk3, hki, hck⟩ := ih r h hf
        exact ⟨k, hk3, Nat.le_succ_of_le hki, hck⟩

/-- C3, amended: `detect_fvg` never returns a bullish gap that is filled in
the source's sense — if it reports a bullish gap from window `k` of the
scanned range, then no candle after `k` in that range has traded down to or
below the gap bottom (`low ≤ gap_bottom`).  A candle that merely closes
inside the band `[gap_bottom, gap_top]` while its low stays above the
bottom does not fill the gap, contrary to the original claim (see the
counterexample). -/
theorem detect_fvg_unfilled_amended (d : List Candle) (mgp : ℚ)
    (lookback : Nat) (r : FVGResult)
    (h : detect_fvg (some d) mgp lookback = some r)
    (hf : r.found = true) (hd : r.direction = Direction.BULLISH) :
    ∃ k, 3 ≤ k ∧ k < (takeLast lookback d).length ∧
      r.gap_bottom = ((takeLast lookback d).getD (k - 2) cDefault).high ∧
      r.gap_top = ((takeLast lookback d).getD k cDefault).low ∧
      ∀ c ∈ (takeLast lookback d).drop (k + 1), r.gap_bottom < c.low := by
  simp only [detect_fvg] at h
  split_ifs at h with hlen
  have heq : fvgGo (takeLast lookback d) mgp ((takeLast lookback d).length - 1)
      = r := Option.some.inj h
  obtain ⟨k, h3, hk, hck⟩ := fvgGo_found_spec _ mgp _ r heq hf
  obtain ⟨hgb, hgt, hall⟩ := fvgCheckAt_bullish_unfilled _ mgp k r hck hd
  exact ⟨k, h3, by omega, hgb, hgt, hall⟩

/-- Witness for C3: the gap reported on `fvgCexCandles` indeed has every
later candle's low above its bottom. -/
theorem detect_fvg_unfilled_witness :
    ∃ k, 3 ≤ k ∧ k < (takeLast 50 fvgCexCandles).length ∧
      fvgCexResult.gap_bottom
        = ((takeLast 50 fvgCexCandles).getD (k - 2) cDefault).high ∧
      fvgCexResult.gap_top
        = ((takeLast 50 fvgCexCandles).getD k cDefault).low ∧
      ∀ c ∈ (takeLast 50 fvgCexCandles).drop (k + 1),
        fvgCexResult.gap_bottom < c.low :=
  detect_fvg_unfilled_amended fvgCexCandles (1/10) 50 fvgCexResult
    (by decide) (by decide) (by decide)

/-! ## C7 — totality and the insufficient-input guards -/

/-- C7: every embedded entry point is a total function by construction
(each is a Lean `def` defined on all inputs), and on missing or too-short
input the indicators return the absent result while the strategy analyzers
return a HOLD signal with confidence 0.0 and an explanatory reason, as the
guards in the source prescribe. -/
theorem core_totality_guards :
    (∀ (period : Nat) (bt st : ℚ), calculate_rsi none period bt st = none) ∧
    (∀ (ps : List ℚ) (period : Nat) (bt st : ℚ), ps.length < period + 1 →
      calculate_rsi (some ps) period bt st = none) ∧
    (∀ (sq : List ℚ → ℚ) (period : Nat) (sd : ℚ),
      calculate_bollinger_bands sq none period sd = none) ∧
    (∀ (sq : List ℚ → ℚ) (ps : List ℚ) (period : Nat) (sd : ℚ),
      ps.length < period → calculate_bollinger_bands sq (some ps) period sd = none) ∧
    (∀ period : Nat, calculate_sma none period = none) ∧
    (∀ (ps : List ℚ) (period : Nat), ps.length < period →
      calculate_sma (some ps) period = none) ∧
    (∀ period : Nat, calculate_ema none period = none) ∧
    (∀ (ps : List ℚ) (period : Nat), ps.length < period →
      calculate_ema (some ps) period = none) ∧
    (∀ f sl sg : Nat, calculate_macd none f sl sg = none) ∧
    (∀ (ps : List ℚ) (f sl sg : Nat), ps.length < sl + sg →
      calculate_macd (some ps) f sl sg = none) ∧
    (∀ (mgp : ℚ) (lb : Nat), detect_fvg none mgp lb = none) ∧
    (∀ (d : List Candle) (mgp : ℚ) (lb : Nat), d.length < 3 →
      detect_fvg (some d) mgp lb = none) ∧
    (∀ (lb mc : Nat) (mbr : ℚ), detect_order_block none lb mc mbr = none) ∧
    (∀ (d : List Candle) (lb mc : Nat) (mbr : ℚ), d.length < lb →
      detect_order_block (some d) lb mc mbr = none) ∧
    (∀ (lb sp : Nat) (bp : ℚ), detect_liquidity_pool none lb sp bp = none) ∧
    (∀ (d : List Candle) (lb sp : Nat) (bp : ℚ), d.length < lb →
      detect_liquidity_pool (some d) lb sp bp = none) ∧
    (∀ (cfg : RSIEMAConfig) (cp : Option ℚ),
      rsi_ema_analyze cfg none cp = ⟨.HOLD, .RSI_EMA, 0, .dataShort⟩) ∧
    (∀ (cfg : RSIEMAConfig) (d : List Candle) (cp : Option ℚ), d.length < 30 →
      rsi_ema_analyze cfg (some d) cp = ⟨.HOLD, .RSI_EMA, 0, .dataShort⟩) ∧
    (∀ (cfg : ICTConfig) (df : Option (List Candle)) (ep : Option ℚ)
        (ip : Bool) (obr : Option OrderBlockResult) (fvgr : Option FVGResult)
        (lpr : Option LiquidityPoolResult),
      ict_analyze cfg df none ep ip obr fvgr lpr
        = ⟨.HOLD, .ICT_Confluence, 0, .noPrice⟩) ∧
    (∀ (cfg : ICTConfig) (p : ℚ) (ep : Option ℚ) (obr : Option OrderBlockResult)
        (fvgr : Option FVGResult) (lpr : Option LiquidityPoolResult),
      ict_analyze cfg none (some p) ep false obr fvgr lpr
        = ⟨.HOLD, .ICT_Confluence, 0, .noOhlcv⟩) ∧
    (∀ (mgp : ℚ) (cp : Option ℚ),
      fvg_strategy_analyze mgp none cp none = ⟨.HOLD, .ICT_FVG, 0, .noOhlcv⟩) ∧
    (bollinger_strategy_analyze none = ⟨.HOLD, .BollingerBand, 0, .noBB⟩) ∧
    (∀ (cfg : TrendConfig) (cp : Option ℚ) (ip : Bool) (ep : Option ℚ),
      trend_analyze cfg none cp ip ep = ⟨.HOLD, 0, .dataShort, some 50, 0, 0, 0⟩) ∧
    (∀ (cfg : TrendConfig) (d : List Candle) (cp : Option ℚ) (ip : Bool)
        (ep : Option ℚ), d.length < max cfg.rsi_period cfg.ema_slow + 5 →
      trend_analyze cfg (some d) cp ip ep = ⟨.HOLD, 0, .dataShort, some 50, 0, 0, 0⟩) ∧
    (∀ (cfg : HybridConfig) (st : HybridState) (d1 d5 : Option (List Candle))
        (ip : Bool) (ep : Option ℚ) (ps : Option StratType),
      hybrid_analyze cfg st d1 d5 none ip ep ps
        = ⟨.HOLD, .NONE, 0, .noPrice, 0, 0, 0⟩) := by
  refine ⟨fun _ _ _ => rfl,
    fun ps period bt st h => by simp [calculate_rsi, h],
    fun _ _ _ => rfl,
    fun sq ps period sd h => by simp [calculate_bollinger_bands, h],
    fun _ => rfl,
    fun ps period h => by simp [calculate_sma, h],
    fun _ => rfl,
    fun ps period h => by simp [calculate_ema, h],
    fun _ _ _ => rfl,
    fun ps f sl sg h => by simp [calculate_macd, h],
    fun _ _ => rfl,
    fun d mgp lb h => by simp [detect_fvg, h],
    fun _ _ _ => rfl,
    fun d lb mc mbr h => by simp [detect_order_block, h],
    fun _ _ _ => rfl,
    fun d lb sp bp h => by simp [detect_liquidity_pool, h],
    fun _ _ => rfl,
    fun cfg d cp h => by simp [rsi_ema_analyze, h],
    fun _ _ _ _ _ _ _ => rfl,
    fun cfg p ep obr fvgr lpr => by simp [ict_analyze],
    fun _ _ => rfl,
    rfl,
    fun _ _ _ _ => rfl,
    fun cfg d cp ip ep h => by simp [trend_analyze, h],
    fun _ _ _ _ _ _ _ => rfl⟩

/-- Witness for C7: concrete short inputs hit the guards. -/
theorem core_totality_guards_witness :
    calculate_rsi (some [1, 2]) 14 30 70 = none ∧
    rsi_ema_analyze ⟨14, 35, 65, 9, 21⟩ (some [cDefault]) none
      = ⟨.HOLD, .RSI_EMA, 0, .dataShort⟩ ∧
    trend_analyze (hybridTrendConfig defaultHybridConfig) (some [cDefault])
      none false none = ⟨.HOLD, 0, .dataShort, some 50, 0, 0, 0⟩ :=
  ⟨core_totality_guards.2.1 [1, 2] 14 30 70 (by decide),
   core_totality_guards.2.2.2.2.2.2.2.2.2.2.2.2.2.2.2.2.2.1
     ⟨14, 35, 65, 9, 21⟩ [cDefault] none (by decide),
   core_totality_guards.2.2.2.2.2.2.2.2.2.2.2.2.2.2.2.2.2.2.2.2.2.2.2.1
     (hybridTrendConfig defaultHybridConfig) [cDefault] none false none
     (by decide)⟩

end CryptoBot
